import Mathlib

/-!
Shallow embedding of the orchestration core of the VEP governance agent
(scheduler, reducers, merge/reconciliation, publish-flag handling,
freshness-gated cache, dispatcher routing), translated from the Python
sources under `src/`, together with theorems settling the claims
C1..C10 about the natural-language specification.

Modelling conventions:
* Wall-clock timestamps are natural numbers counting microseconds since an
  hour-aligned origin (Python `datetime` values; `datetime` subtraction is
  exact integer microseconds, embedded as `Int` subtraction).
* Python dicts keyed by strings are association lists `List (String × α)`;
  `dget` is `dict.get` (first binding wins, as dicts have unique keys).
  Python dict equality `==` ignores insertion order, embedded as
  extensional equality of lookups.
* Opaque external payloads (alert records, LLM outputs) are abstract data
  (`Nat` tokens or explicit structures carrying exactly the fields the
  orchestration code reads).
-/

namespace VEPAgent

/-- `dict.get k` on an association list: first binding for `k`, if any. -/
def dget {α : Type} (k : String) : List (String × α) → Option α
  | [] => none
  | (k2, v) :: es => if k2 = k then some v else dget k es

/-- Python `{**x, **y}`: a copy of `x` with every key of `y` added or
overwritten (overwritten keys keep `x`'s position, new keys of `y` are
appended in `y`'s order). -/
def pyDictUpdate {α : Type} (x y : List (String × α)) : List (String × α) :=
  x.map (fun p => match dget p.1 y with
    | some v => (p.1, v)
    | none => p)
  ++ y.filter (fun p => (dget p.1 x).isNone)

/-- `merge_dict_reducer` from `src/state.py`: `if not x: return y or {}`,
`if not y: return x or {}`, else `{**x, **y}`. -/
def merge_dict_reducer {α : Type} (x y : List (String × α)) : List (String × α) :=
  if x.isEmpty then y
  else if y.isEmpty then x
  else pyDictUpdate x y

/-- `concat_list_reducer` from `src/state.py`: `if not x: return y or []`,
`if not y: return x or []`, else `x + y`. -/
def concat_list_reducer {α : Type} (x y : List α) : List α :=
  if x.isEmpty then y
  else if y.isEmpty then x
  else x ++ y

/-- `Option.orElse` specialised, for stating lookup lemmas. -/
def oor {α : Type} (a b : Option α) : Option α :=
  match a with
  | some v => some v
  | none => b

theorem oor_assoc {α : Type} (a b c : Option α) : oor (oor a b) c = oor a (oor b c) := by
  cases a <;> simp [oor]

theorem oor_none_right {α : Type} (a : Option α) : oor a none = a := by
  cases a <;> rfl

theorem oor_none_left {α : Type} (b : Option α) : oor none b = b := rfl

theorem dget_append {α : Type} (k : String) (l₁ l₂ : List (String × α)) :
    dget k (l₁ ++ l₂) = oor (dget k l₁) (dget k l₂) := by
  induction l₁ with
  | nil => simp [dget, oor]
  | cons p es ih =>
    by_cases h : p.1 = k <;> simp [dget, h, oor, ih]

theorem dget_map_update {α : Type} (k : String) (x y : List (String × α)) :
    dget k (x.map (fun p => match dget p.1 y with
      | some v => (p.1, v)
      | none => p)) =
    match dget k x with
    | none => none
    | some v => oor (dget k y) (some v) := by
  induction x with
  | nil => simp [dget]
  | cons p es ih =>
    by_cases h : p.1 = k
    · subst h
      cases hy : dget p.1 y <;> simp [dget, hy, oor]
    · cases hm : dget p.1 y <;> simp [dget, hm, h, ih]

theorem dget_filter_unbound {α : Type} (k : String) (x y : List (String × α)) :
    dget k (y.filter (fun p => (dget p.1 x).isNone)) =
    match dget k x with
    | none => dget k y
    | some _ => none := by
  induction y with
  | nil => cases dget k x <;> simp [dget]
  | cons p es ih =>
    by_cases h : p.1 = k
    · subst h
      cases hx : dget p.1 x <;> simp [dget, hx, ih]
    · cases hx : dget p.1 x <;>
        cases hpx : dget p.1 x <;>
          simp [dget, hx, hpx, h] at ih ⊢ <;> simp [ih]

/-- The key semantic fact about the dictionary reducer: looking up any key
in the merged dict gives the update's value when bound there, else the
base's value — exactly Python `{**x, **y}`. -/
theorem dget_merge_dict_reducer {α : Type} (k : String) (x y : List (String × α)) :
    dget k (merge_dict_reducer x y) = oor (dget k y) (dget k x) := by
  unfold merge_dict_reducer
  by_cases hx : x.isEmpty
  · have : x = [] := List.isEmpty_iff.mp hx
    subst this
    simp [dget, oor_none_right]
  · by_cases hy : y.isEmpty
    · have : y = [] := List.isEmpty_iff.mp hy
      subst this
      simp [dget, oor_none_left, hx]
    · simp only [hx, hy, if_false, Bool.false_eq_true]
      unfold pyDictUpdate
      rw [dget_append, dget_map_update, dget_filter_unbound]
      cases h : dget k x <;> cases h2 : dget k y <;> simp [oor]

/-! Clock policy and due-check, from `src/nodes/scheduler.py`. -/

/-- Microseconds per second (`datetime` resolution). -/
def usPerSecond : Nat := 1000000

/-- Microseconds per minute. -/
def usPerMinute : Nat := 60000000

/-- Microseconds per hour. -/
def usPerHour : Nat := 3600000000

/-- `_is_round_hour(now)`: `now.minute == 0 and now.second == 0`
(microseconds are not inspected). -/
def is_round_hour (now : Nat) : Bool :=
  now / usPerMinute % 60 = 0 && now / usPerSecond % 60 = 0

/-- `_get_next_round_hour(now)`:
`now.replace(minute=0, second=0, microsecond=0) + timedelta(hours=1)`. -/
def get_next_round_hour (now : Nat) : Nat :=
  now / usPerHour * usPerHour + usPerHour

/-- `_should_run_operation` from `src/nodes/scheduler.py`: first run always
runs; a never-run operation runs immediately under `immediate_start`,
otherwise only at a round hour; a previously-run operation is skipped while
`(now - last_check).total_seconds() < interval_seconds`, and once the
interval has elapsed runs immediately under `immediate_start`, otherwise
only at a round hour. -/
def should_run_operation (operation_name : String)
    (last_check_times : List (String × Nat)) (interval_seconds : Nat)
    (now : Nat) (is_first_run : Bool) (immediate_start : Bool) : Bool :=
  if is_first_run then true
  else
    match dget operation_name last_check_times with
    | none => if immediate_start then true else is_round_hour now
    | some last_check =>
      if (now : Int) - (last_check : Int) < (interval_seconds : Int) * 1000000 then false
      else if immediate_start then true else is_round_hour now

/-! Scheduler, from `src/nodes/scheduler.py` (`scheduler_node`) with the
intervals of `src/config.py`. The ambient `DEBUG_MODE == "test-sheets"`
environment test is the boolean parameter `debugTestSheets`. -/

/-- `FETCH_VEPS_INTERVAL_SECONDS` from `src/config.py`. -/
def FETCH_VEPS_INTERVAL_SECONDS : Nat := 3600

/-- `UPDATE_SHEETS_INTERVAL_SECONDS` from `src/config.py`. -/
def UPDATE_SHEETS_INTERVAL_SECONDS : Nat := 3600

/-- `ALERT_SUMMARY_INTERVAL_SECONDS` from `src/config.py`. -/
def ALERT_SUMMARY_INTERVAL_SECONDS : Nat := 3600

/-- The fields of the shared LangGraph state (`VEPState` in `src/state.py`)
that `scheduler_node` reads. VEPs are identified here by their integer
tracking ids; the scheduler itself only tests emptiness of the list. -/
structure SchedulerState where
  last_check_times : List (String × Nat)
  veps : List Nat
  one_cycle : Bool
  immediate_start : Bool
  skip_monitoring : Bool
  sheets_need_update : Bool
  exit_after_sheets : Bool

/-- `veps_need_analysis`: true when `fetch_veps` ran more recently than
`analyze_combined`, or ran while `analyze_combined` never did. -/
def veps_need_analysis (last_check_times : List (String × Nat)) : Bool :=
  match dget "fetch_veps" last_check_times, dget "analyze_combined" last_check_times with
  | some f, some a => decide (a < f)
  | some _, none => true
  | none, _ => false

/-- The first-run branch of `scheduler_node`: schedule `fetch_veps` when the
VEP list is empty, `run_monitoring` when analysis is needed and monitoring is
not skipped, then always `update_sheets` and `alert_summary`. -/
def firstRunTasks (s : SchedulerState) (needAnalysis : Bool) : List String :=
  (if s.veps.isEmpty then ["fetch_veps"] else [])
  ++ (if (s.veps.isEmpty || needAnalysis) && !s.skip_monitoring then ["run_monitoring"] else [])
  ++ ["update_sheets", "alert_summary"]

/-- The steady-state priority chain of `scheduler_node`: fetch when due
(then monitoring unless skipped); else refetch when VEPs still need
analysis; else, when no analysis is pending, sheets and alert-summary when
due. -/
def steadyTasks (s : SchedulerState) (needAnalysis : Bool) (now : Nat) : List String :=
  if should_run_operation "fetch_veps" s.last_check_times FETCH_VEPS_INTERVAL_SECONDS now false s.immediate_start then
    ["fetch_veps"] ++ (if !s.skip_monitoring then ["run_monitoring"] else [])
  else if needAnalysis && !s.skip_monitoring then
    ["fetch_veps"]
  else if !needAnalysis then
    (if should_run_operation "update_sheets" s.last_check_times UPDATE_SHEETS_INTERVAL_SECONDS now false s.immediate_start then ["update_sheets"] else [])
    ++ (if should_run_operation "alert_summary" s.last_check_times ALERT_SUMMARY_INTERVAL_SECONDS now false s.immediate_start then ["alert_summary"] else [])
  else []

/-- The trailing `sheets_need_update` paragraph of `scheduler_node`: when the
flag is set and `update_sheets` is not already queued, append it — but only
when VEPs do not need analysis or monitoring is skipped. -/
def applyDirtyFlag (s : SchedulerState) (needAnalysis : Bool) (next_tasks : List String) : List String :=
  if s.sheets_need_update ∧ "update_sheets" ∉ next_tasks then
    if !needAnalysis || s.skip_monitoring then next_tasks ++ ["update_sheets"]
    else next_tasks
  else next_tasks

/-- `scheduler_node` from `src/nodes/scheduler.py`: exit gate, first-run
bootstrap, round-hour gate (early return `["wait"]`), steady-state due
checks, and the dirty-flag paragraph (which the early returns skip). -/
def scheduler_node (s : SchedulerState) (debugTestSheets : Bool) (now : Nat) : List String :=
  if (s.one_cycle || debugTestSheets) && s.exit_after_sheets then []
  else
    let is_first_run := s.last_check_times.length = 0
    let needAnalysis := veps_need_analysis s.last_check_times
    if is_first_run then
      applyDirtyFlag s needAnalysis (firstRunTasks s needAnalysis)
    else if !s.immediate_start && !is_round_hour now then
      ["wait"]
    else
      applyDirtyFlag s needAnalysis (steadyTasks s needAnalysis now)

/-! Dispatcher routing, from `src/graph.py` (`route_scheduler`). -/

/-- `route_scheduler` from `src/graph.py`: exit gate first; empty queue
waits; the head task is taken, replaced by the second task (or `wait`) when
`skip_monitoring` suppresses `run_monitoring`; anything outside the valid
task set routes to `wait`. -/
def route_scheduler (one_cycle debugTestSheets exit_after_sheets skip_monitoring : Bool)
    (next_tasks : List String) : String :=
  if (one_cycle || debugTestSheets) && exit_after_sheets then "wait"
  else
    match next_tasks with
    | [] => "wait"
    | task :: rest =>
      let chosen : Option String :=
        if skip_monitoring && task = "run_monitoring" then
          match rest with
          | [] => none
          | task2 :: _ => some task2
        else some task
      match chosen with
      | none => "wait"
      | some t =>
        if t = "fetch_veps" ∨ t = "run_monitoring" ∨ t = "update_sheets" then t else "wait"

/-! Merge/reconciliation, from `src/nodes/merge_vep_updates.py`
(`merge_vep_updates_node`). The LLM collaborator's reply is the node's
external input (`llm_veps`, `llm_alerts`); alert records are opaque tokens. -/

/-- The two identifying fields of `VEPInfo` (`src/state.py`) that the
reconciliation step reads: the integer tracking id and the VEP name. -/
structure VEP where
  tracking_issue_id : Nat
  name : String
deriving DecidableEq, Repr

/-- A node's partial state update: either `{}` (nothing merged) or new
`veps` and `alerts` values. -/
inductive MergeOutput where
  | unchanged
  | updated (veps : List VEP) (alerts : List Nat)
deriving DecidableEq, Repr

/-- `merge_vep_updates_node`: returns `{}` when `vep_updates_by_check` is
empty; otherwise takes the LLM's merged list, and only when it is strictly
shorter than the pre-cycle list re-appends every pre-cycle VEP whose *name*
is absent from the LLM result; alerts are the state's alerts extended with
the LLM's. -/
def merge_vep_updates_node (veps : List VEP)
    (vep_updates_by_check : List (String × List VEP))
    (llm_veps : List VEP) (llm_alerts : List Nat) (state_alerts : List Nat) : MergeOutput :=
  if vep_updates_by_check.isEmpty then .unchanged
  else
    let merged_veps :=
      if llm_veps.length < veps.length then
        let existing_names := llm_veps.map VEP.name
        llm_veps ++ veps.filter (fun v => v.name ∉ existing_names)
      else llm_veps
    .updated merged_veps (state_alerts ++ llm_alerts)

/-! Publish task, from `src/nodes/update_sheets.py` (`update_sheets_node`).
Only the orchestration-visible outputs are modelled: the returned
`sheets_need_update` flag, the `_exit_after_sheets` flag and `next_tasks`.
The Sheets/LLM collaborator's behaviour is the node's external input. -/

/-- Whether `needle` occurs at the start of `hay` (character lists). -/
def listStartsWith : List Char → List Char → Bool
  | [], _ => true
  | _ :: _, [] => false
  | c :: cs, d :: ds => c = d && listStartsWith cs ds

/-- Whether `needle` occurs anywhere inside `hay` (character lists). -/
def listHasSub (needle : List Char) : List Char → Bool
  | [] => listStartsWith needle []
  | c :: cs => listStartsWith needle (c :: cs) || listHasSub needle cs

/-- Python `needle in haystack` on strings. -/
def strContainsSub (haystack needle : String) : Bool :=
  listHasSub needle.toList haystack.toList

/-- The error-text test of `update_sheets_node` lines 271-276: the failure
message (lowercased) names a permission/API/quota problem. -/
def isPermApiQuotaError (error_msg : String) : Bool :=
  let t := error_msg.toLower
  strContainsSub t "insufficient permission" || strContainsSub t "permission denied" ||
  strContainsSub t "api has not been used" || strContainsSub t "api.*disabled" ||
  strContainsSub t "enable it by visiting" || strContainsSub t "quota has been exceeded" ||
  strContainsSub t "storage quota"

/-- The failure message built at line 268:
`"Google Sheets update failed: "` + comma-joined errors (or
`"Unknown error"`). -/
def sheetsFailureMsg (errors : List String) : String :=
  "Google Sheets update failed: " ++
    (if errors.isEmpty then "Unknown error" else String.intercalate ", " errors)

/-- The exception test of lines 369-374: the raised error's text marks the
Sheets MCP integration as unavailable. -/
def isMcpUnavailableText (e : String) : Bool :=
  let t := e.toLower
  strContainsSub t "404" || strContainsSub t "not found" ||
  strContainsSub t "connection closed" ||
  strContainsSub t "@modelcontextprotocol/server-google-sheets"

/-- Outcome of the `invoke_llm_with_tools` call inside `update_sheets_node`:
a falsy result, a structured reply (`success`, `sheet_id`, `errors`), or a
raised exception. -/
inductive SheetsOutcome where
  | noResult
  | reply (success : Bool) (sheet_id : Option String) (errors : List String)
  | raised (message : String)
deriving DecidableEq, Repr

/-- The orchestration-visible part of `update_sheets_node`'s returned
partial update. -/
structure SheetsNodeResult where
  sheets_need_update : Bool
  exit_after_sheets : Bool
  next_tasks : List String
deriving DecidableEq, Repr

/-- `update_sheets_node`: pops itself off the queue head; skips (clearing
the flag) when no update is needed or there are no VEPs (then queueing
`fetch_veps`); clears the flag when the MCP reply is falsy, on
permission/API/quota failures, on success, and on raised MCP-unavailable
errors; keeps it set on other failures; sets `_exit_after_sheets` and
empties the queue after a successful update in one-cycle or test-sheets
mode. -/
def update_sheets_node (sheets_need_update : Bool) (veps : List VEP)
    (next_tasks_in : List String) (one_cycle debugTestSheets : Bool)
    (outcome : SheetsOutcome) : SheetsNodeResult :=
  let next_tasks :=
    match next_tasks_in with
    | "update_sheets" :: rest => rest
    | l => l
  if !sheets_need_update then
    ⟨false, false, next_tasks⟩
  else if veps.isEmpty then
    let nt := if "fetch_veps" ∈ next_tasks then next_tasks else next_tasks ++ ["fetch_veps"]
    ⟨false, false, nt⟩
  else
    match outcome with
    | .raised msg => ⟨!isMcpUnavailableText msg, false, next_tasks⟩
    | .noResult => ⟨false, false, next_tasks⟩
    | .reply success sheet_id errors =>
      if !success && sheet_id.isNone then
        if isPermApiQuotaError (sheetsFailureMsg errors) then ⟨false, false, next_tasks⟩
        else ⟨true, false, next_tasks⟩
      else if success then
        let exitFlag := one_cycle || debugTestSheets
        ⟨false, exitFlag, if exitFlag then [] else next_tasks⟩
      else ⟨true, false, next_tasks⟩

/-- The flag-keeping characterisation used to state the amended C9:
per collaborator outcome, whether `update_sheets_node` leaves
`sheets_need_update` set (given the flag was set and VEPs exist). -/
def sheetsFlagKept (outcome : SheetsOutcome) : Bool :=
  match outcome with
  | .noResult => false
  | .raised msg => !isMcpUnavailableText msg
  | .reply success sheet_id errors =>
    if success then false
    else if sheet_id.isNone then !isPermApiQuotaError (sheetsFailureMsg errors)
    else true

/-! Freshness-gated cache, from `src/services/indexer.py`
(`_load_cached_index`, `create_indexed_context`). The backing file is an
abstract read result; payloads are opaque tokens carrying only the
cache-validation bit (`has all required keys`) that `create_indexed_context`
inspects. -/

/-- What reading and JSON-decoding the cache file can yield: no file, a
decode/parse error (`json.JSONDecodeError`/`ValueError`), or parsed data
with an optional `cached_at` timestamp. -/
inductive CacheFileState where
  | absent
  | unreadable
  | parsed (cached_at : Option Nat) (hasRequiredKeys : Bool) (payload : Nat)
deriving DecidableEq, Repr

/-- `_load_cached_index(cache_file, max_age_minutes)` at wall-clock `now`:
returns the payload only when the file exists, decodes, carries a
`cached_at`, and `age_minutes < max_age_minutes` (strict); all other cases
yield `None`. -/
def load_cached_index (file : CacheFileState) (max_age_minutes : Nat) (now : Nat) :
    Option (Bool × Nat) :=
  match file with
  | .absent => none
  | .unreadable => none
  | .parsed none _ _ => none
  | .parsed (some cached_at) keysOk payload =>
    if (now : Int) - (cached_at : Int) < (max_age_minutes : Int) * 60 * 1000000 then
      some (keysOk, payload)
    else none

/-- The cache decision of `create_indexed_context`: serve the cached payload
when `_load_cached_index` returned one **and** it has all required keys;
otherwise recompute (the fresh payload). First component: whether the
recompute path was taken. -/
def create_indexed_context_decision (file : CacheFileState) (max_age_minutes : Nat)
    (now : Nat) (fresh : Nat) : Bool × Nat :=
  match load_cached_index file max_age_minutes now with
  | some (keysOk, payload) => if keysOk then (false, payload) else (true, fresh)
  | none => (true, fresh)

/-- For a persisted entry, its `cached_at` does not postdate the call. -/
def entryNotFromFuture (file : CacheFileState) (now : Nat) : Prop :=
  match file with
  | .parsed (some cached_at) _ _ => cached_at ≤ now
  | _ => True

/-! Python name resolution inside `src/services/indexer.py`, for the claim
that `create_indexed_context` dereferences names the module never binds.
The global names are exactly the module's imports and top-level `def`s;
the builtin names are the CPython builtins the module uses. -/

/-- Every name bound at module level in `src/services/indexer.py`: the
imports of lines 7-13 and the twelve top-level function definitions. -/
def indexerGlobalNames : List String :=
  ["re", "json", "time", "Dict", "List", "Any", "Optional", "datetime",
   "timedelta", "log", "get_mcp_tools_by_name",
   "_call_with_retry", "_parse_version", "_sort_versions_numerically",
   "index_release_schedule", "_filter_by_date", "index_enhancements_issues",
   "index_kubevirt_prs", "index_enhancements_readme", "index_vep_files",
   "_load_cached_index", "_save_cached_index", "create_indexed_context"]

/-- The CPython builtins referenced by the module (fallback scope of global
name lookup). -/
def pythonBuiltinNames : List String :=
  ["len", "open", "all", "set", "str", "int", "float", "bool", "range",
   "print", "Exception", "isinstance", "sorted", "max", "min", "enumerate",
   "list", "dict", "tuple", "any", "zip", "abs", "sum", "repr", "type"]

/-- Global name lookup in the module: module globals, then builtins. -/
def resolvesInIndexer (n : String) : Bool :=
  n ∈ indexerGlobalNames || n ∈ pythonBuiltinNames

/-- A Python evaluation step: a value, or a raised `NameError`. -/
inductive PyEval (α : Type) where
  | ok (a : α)
  | nameError (n : String)
deriving DecidableEq, Repr

/-- The first statement executed by any call to `create_indexed_context`
(line 1235): evaluate `_load_cached_index(CACHE_FILE, cache_max_age_minutes)`
— resolve the callee, then the global `CACHE_FILE`, then the local
parameter. The call's arguments play no role in name resolution. -/
def create_indexed_context_entry (days_back cache_max_age_minutes : Nat) : PyEval (Nat × Nat) :=
  if !resolvesInIndexer "_load_cached_index" then .nameError "_load_cached_index"
  else if !resolvesInIndexer "CACHE_FILE" then .nameError "CACHE_FILE"
  else .ok (days_back, cache_max_age_minutes)

/-! Concrete instants used in scenario claims. All are on day 0 of the
hour-aligned origin. `t1347` is 13:47:00.000000, `t1400` is 14:00:00. -/

/-- 13:47:00 as microseconds since the origin. -/
def t1347 : Nat := 49620000000

/-- 14:00:00 as microseconds since the origin. -/
def t1400 : Nat := 50400000000

/-! ### Claims -/

/-- C10: the names `CACHE_FILE` and `Path` are bound neither at module level
in `services/indexer.py` nor among the builtins, so every call to
`create_indexed_context` raises a `NameError` on its first statement
(the `_load_cached_index(CACHE_FILE, …)` call), for any argument values —
the cache read/write path is unreachable. -/
theorem C10_cache_file_unbound :
    resolvesInIndexer "CACHE_FILE" = false
    ∧ resolvesInIndexer "Path" = false
    ∧ ∀ (days_back cache_max_age_minutes : Nat),
        create_indexed_context_entry days_back cache_max_age_minutes =
          .nameError "CACHE_FILE" :=
  ⟨by decide, by decide, fun _ _ => rfl⟩

/-- C6: whenever `one_cycle` and `_exit_after_sheets` are both set, the
scheduler returns the empty task queue, whatever the timers, VEP list, or
other flags say. -/
theorem C6_exit_gate (s : SchedulerState) (debugTestSheets : Bool) (now : Nat)
    (h1 : s.one_cycle = true) (h2 : s.exit_after_sheets = true) :
    scheduler_node s debugTestSheets now = [] := by
  unfold scheduler_node
  simp [h1, h2]

/-- State for the C6 witness: every timer long overdue at a round hour, so
all tasks would otherwise be scheduled. -/
def c6state : SchedulerState :=
  { last_check_times := [("fetch_veps", 1000000), ("analyze_combined", 2000000),
      ("update_sheets", 3000000), ("alert_summary", 4000000)]
    veps := [101]
    one_cycle := true
    immediate_start := false
    skip_monitoring := false
    sheets_need_update := true
    exit_after_sheets := true }

/-- C6 witness: the exit gate fires at a round hour with every task due. -/
theorem C6_exit_gate_witness :
    (c6state.one_cycle = true ∧ c6state.exit_after_sheets = true
      ∧ is_round_hour t1400 = true)
    ∧ scheduler_node c6state false t1400 = [] :=
  ⟨⟨rfl, rfl, by decide⟩, C6_exit_gate c6state false t1400 rfl rfl⟩

/-- C1: evaluation of the merge step at inputs that violate the claimed
conservation invariant. First input: one pre-cycle VEP (id 1), a non-empty
staged-update map, and an LLM reply of equal length carrying only id 2 —
the node returns only id 2, dropping id 1, because the preservation
fallback only runs when the reply is strictly shorter. Second input: two
pre-cycle VEPs and a shorter LLM reply that renames id 1 — the name-based
fallback re-appends the old id-1 VEP, leaving two entities with id 1. -/
theorem C1_merge_violates_conservation :
    (merge_vep_updates_node [⟨1, "vep-0001"⟩]
        [("check_activity", [⟨1, "vep-0001"⟩])] [⟨2, "vep-0002"⟩] [] []
      = .updated [⟨2, "vep-0002"⟩] []
     ∧ ∀ v ∈ [VEP.mk 2 "vep-0002"], v.tracking_issue_id ≠ 1)
    ∧ (merge_vep_updates_node [⟨1, "vep-a"⟩, ⟨2, "vep-b"⟩]
        [("check_compliance", [⟨1, "vep-a"⟩])] [⟨1, "vep-x"⟩] [] []
      = .updated [⟨1, "vep-x"⟩, ⟨1, "vep-a"⟩, ⟨2, "vep-b"⟩] []) := by
  refine ⟨⟨?_, ?_⟩, ?_⟩ <;> decide

/-- C2 counterexample: with no first-run override and no `immediate_start`,
an operation that has never run (absent last-run timestamp) is *not* due at
13:47 — the due-check also demands a round hour, contradicting
`DueSince(None, interval, now) = true`. -/
theorem C2_counterexample :
    dget "update_sheets" ([] : List (String × Nat)) = none
    ∧ should_run_operation "update_sheets" [] 3600 t1347 false false = false := by
  refine ⟨rfl, ?_⟩
  decide

/-- C2 as amended: the due-check returns true iff this is the first run, or
the operation is due by interval (absent timestamp, or at least the interval
elapsed) **and** the round-hour/immediate-start gate passes. -/
theorem C2_amended_characterisation (operation_name : String)
    (last_check_times : List (String × Nat)) (interval_seconds now : Nat)
    (is_first_run immediate_start : Bool) :
    should_run_operation operation_name last_check_times interval_seconds now
        is_first_run immediate_start =
      (is_first_run ||
        ((match dget operation_name last_check_times with
          | none => true
          | some last_check =>
            decide ((interval_seconds : Int) * 1000000 ≤ (now : Int) - (last_check : Int)))
         && (immediate_start || is_round_hour now))) := by
  unfold should_run_operation
  cases is_first_run with
  | true => simp
  | false =>
    cases h : dget operation_name last_check_times with
    | none => cases immediate_start <;> simp
    | some last_check =>
      by_cases hlt : (now : Int) - (last_check : Int) < (interval_seconds : Int) * 1000000
      · have : ((interval_seconds : Int) * 1000000 ≤ (now : Int) - (last_check : Int)) = False := by
          simp; omega
        simp [hlt, this]
      · have : ((interval_seconds : Int) * 1000000 ≤ (now : Int) - (last_check : Int)) = True := by
          simp; omega
        cases immediate_start <;> simp [hlt, this]

/-- The list reducer's guards are redundant: it always concatenates. -/
theorem concat_list_reducer_eq_append {α : Type} (x y : List α) :
    concat_list_reducer x y = x ++ y := by
  unfold concat_list_reducer
  by_cases hx : x.isEmpty
  · rw [List.isEmpty_iff.mp hx]; simp
  · by_cases hy : y.isEmpty
    · rw [List.isEmpty_iff.mp hy]; simp [hx]
    · simp [hx, hy]

/-- A successful lookup means the key occurs among the list's keys. -/
theorem dget_some_mem_keys {α : Type} {k : String} {x : List (String × α)} {v : α}
    (h : dget k x = some v) : k ∈ x.map Prod.fst := by
  induction x with
  | nil => simp [dget] at h
  | cons p es ih =>
    by_cases hp : p.1 = k
    · simp [hp]
    · simp [dget, hp] at h
      simp [ih h]

/-- C4 counterexample: neither reducer is commutative. On the colliding key
`"a"` the dictionary union keeps the right argument's value, so swapping the
arguments changes the result; list concatenation reverses order. -/
theorem C4_counterexample :
    dget "a" (merge_dict_reducer [("a", 1)] [("a", 2)])
      ≠ dget "a" (merge_dict_reducer [("a", 2)] [("a", 1)])
    ∧ concat_list_reducer [1] [2] ≠ concat_list_reducer [2] [1] := by
  refine ⟨?_, ?_⟩ <;> decide

/-- C4 as amended: both reducers are associative (the dictionary reducer up
to Python dict equality, i.e. pointwise lookup), and the dictionary reducer
is commutative (again pointwise) when the two dictionaries' key sets are
disjoint — the case fan-out siblings are in, since each task owns its own
key; it is not commutative on colliding keys, and list concatenation is not
commutative at all. -/
theorem C4_amended_reducer_algebra :
    (∀ (α : Type) (x y z : List (String × α)) (k : String),
      dget k (merge_dict_reducer (merge_dict_reducer x y) z)
        = dget k (merge_dict_reducer x (merge_dict_reducer y z)))
    ∧ (∀ (α : Type) (x y z : List α),
      concat_list_reducer (concat_list_reducer x y) z
        = concat_list_reducer x (concat_list_reducer y z))
    ∧ (∀ (α : Type) (x y : List (String × α)),
      (∀ k ∈ x.map Prod.fst, dget k y = none) →
      ∀ k, dget k (merge_dict_reducer x y) = dget k (merge_dict_reducer y x)) := by
  refine ⟨?_, ?_, ?_⟩
  · intro α x y z k
    rw [dget_merge_dict_reducer, dget_merge_dict_reducer,
      dget_merge_dict_reducer, dget_merge_dict_reducer, oor_assoc]
  · intro α x y z
    rw [concat_list_reducer_eq_append, concat_list_reducer_eq_append,
      concat_list_reducer_eq_append, concat_list_reducer_eq_append,
      List.append_assoc]
  · intro α x y hdisj k
    rw [dget_merge_dict_reducer, dget_merge_dict_reducer]
    cases hx : dget k x with
    | none =>
      rw [oor_none_left, oor_none_right]
    | some v =>
      rw [hdisj k (dget_some_mem_keys hx)]
      simp [oor]

/-- C4 witness: the amended statement applied at concrete dictionaries and
lists, the commutativity part at dictionaries with disjoint keys. -/
theorem C4_amended_reducer_algebra_witness :
    (dget "k" (merge_dict_reducer (merge_dict_reducer [("k", 1)] [("j", 2)]) [("k", 3)])
      = dget "k" (merge_dict_reducer [("k", 1)] (merge_dict_reducer [("j", 2)] [("k", 3)])))
    ∧ (concat_list_reducer (concat_list_reducer [1] [2]) [3]
      = concat_list_reducer [1] (concat_list_reducer [2] [3]))
    ∧ dget "a" (merge_dict_reducer [("a", 1)] [("b", 2)])
      = dget "a" (merge_dict_reducer [("b", 2)] [("a", 1)]) :=
  ⟨C4_amended_reducer_algebra.1 Nat [("k", 1)] [("j", 2)] [("k", 3)] "k",
   C4_amended_reducer_algebra.2.1 Nat [1] [2] [3],
   C4_amended_reducer_algebra.2.2 Nat [("a", 1)] [("b", 2)] (by decide) "a"⟩

/-- C5: the freshness gate of the cache. With `max age = 0` every call
recomputes (for any persisted entry whose timestamp does not postdate the
call); an entry strictly younger than the max age is served from cache with
no recompute; an entry whose age equals the max age exactly is stale and
recomputes — the staleness boundary is inclusive. -/
theorem C5_cache_freshness (file : CacheFileState)
    (now fresh max_age_minutes cached_at : Nat) (keysOk : Bool) (payload : Nat) :
    (entryNotFromFuture file now →
      (create_indexed_context_decision file 0 now fresh).1 = true)
    ∧ ((now : Int) - (cached_at : Int) < (max_age_minutes : Int) * 60 * 1000000 →
      create_indexed_context_decision (.parsed (some cached_at) true payload)
          max_age_minutes now fresh = (false, payload))
    ∧ ((now : Int) - (cached_at : Int) = (max_age_minutes : Int) * 60 * 1000000 →
      (create_indexed_context_decision (.parsed (some cached_at) keysOk payload)
          max_age_minutes now fresh).1 = true) := by
  refine ⟨?_, ?_, ?_⟩
  · intro hle
    unfold create_indexed_context_decision load_cached_index
    match file with
    | .absent => rfl
    | .unreadable => rfl
    | .parsed none _ _ => rfl
    | .parsed (some t) ko p =>
      have ht : t ≤ now := hle
      have h2 : ¬ ((now : Int) - (t : Int) < ((0 : Nat) : Int) * 60 * 1000000) := by
        push_cast
        omega
      dsimp only
      rw [if_neg h2]
  · intro hyoung
    unfold create_indexed_context_decision load_cached_index
    simp [hyoung]
  · intro hexact
    unfold create_indexed_context_decision load_cached_index
    have : ¬ ((now : Int) - (cached_at : Int) < (max_age_minutes : Int) * 60 * 1000000) := by
      omega
    simp [this]

/-- C5 witness: the three freshness cases at concrete entries — max age 0
recomputes, a 5 µs-old entry under a 1-minute max age is served from cache,
and an exactly 60-second-old entry under a 1-minute max age recomputes. -/
theorem C5_cache_freshness_witness :
    ((create_indexed_context_decision (.parsed (some 5) true 7) 0 10 9).1 = true)
    ∧ (create_indexed_context_decision (.parsed (some 5) true 7) 1 10 9 = (false, 7))
    ∧ ((create_indexed_context_decision (.parsed (some 0) true 7) 1 60000000 9).1 = true) :=
  ⟨(C5_cache_freshness (.parsed (some 5) true 7) 10 9 1 5 true 7).1
      (by unfold entryNotFromFuture; decide),
   (C5_cache_freshness (.parsed (some 5) true 7) 10 9 1 5 true 7).2.1 (by decide),
   (C5_cache_freshness (.parsed (some 0) true 7) 60000000 9 1 0 true 7).2.2 (by decide)⟩

/-- C8 counterexample: with a non-empty queue headed by `alert_summary`
(and every override off), the router does not dispatch the head — it
returns the `wait` sentinel, because only `fetch_veps`, `run_monitoring`
and `update_sheets` are routable. -/
theorem C8_counterexample :
    (["alert_summary"] : List String) ≠ []
    ∧ route_scheduler false false false false ["alert_summary"] ≠ "alert_summary" := by
  refine ⟨?_, ?_⟩ <;> decide

/-- C8 as amended: the router dispatches exactly the head of a non-empty
queue provided the one-cycle/test-sheets exit gate is off, the head is one
of the three routable tasks, and it is not `run_monitoring` suppressed by
`skip_monitoring`; in the remaining cases it falls back to the second task
or to the `wait` sentinel. -/
theorem C8_amended_head_dispatch (one_cycle debugTestSheets exit_after_sheets skip_monitoring : Bool)
    (task : String) (rest : List String)
    (hgate : ((one_cycle || debugTestSheets) && exit_after_sheets) = false)
    (hvalid : task = "fetch_veps" ∨ task = "run_monitoring" ∨ task = "update_sheets")
    (hskip : ¬(skip_monitoring = true ∧ task = "run_monitoring")) :
    route_scheduler one_cycle debugTestSheets exit_after_sheets skip_monitoring
      (task :: rest) = task := by
  unfold route_scheduler
  rw [hgate]
  cases skip_monitoring with
  | true =>
    have hne : ¬(task = "run_monitoring") := fun h => hskip ⟨rfl, h⟩
    rcases hvalid with h | h | h
    · subst h; rfl
    · exact absurd h hne
    · subst h; rfl
  | false =>
    rcases hvalid with h | h | h <;> subst h <;> rfl

/-- C8 witness: an ordinary queue headed by `fetch_veps` routes to
`fetch_veps`. -/
theorem C8_amended_head_dispatch_witness :
    route_scheduler false false false false ["fetch_veps", "run_monitoring"] = "fetch_veps" :=
  C8_amended_head_dispatch false false false false "fetch_veps" ["run_monitoring"]
    rfl (Or.inl rfl) (by decide)

/-- C9 counterexample: two attempts that perform no successful external
update yet clear the flag. With the flag set and no VEPs the node skips the
publish entirely and still returns `sheets_need_update = false` (queueing
`fetch_veps` instead); with VEPs present and a falsy collaborator reply
(Sheets MCP unavailable) it also clears the flag to avoid infinite
retries. -/
theorem C9_counterexample :
    (update_sheets_node true [] ["update_sheets"] false false .noResult).sheets_need_update = false
    ∧ (update_sheets_node true [⟨1, "vep-0001"⟩] [] false false .noResult).sheets_need_update
      = false := by
  refine ⟨?_, ?_⟩ <;> decide

/-- C9 as amended: `update_sheets_node` leaves the flag set only when it was
set, VEPs exist, and the collaborator outcome is a retryable failure (a
structured failure that is not a permission/API/quota error without sheet
id, or a raised error that does not mark the MCP as unavailable); it clears
the flag on success and equally on skipped attempts (flag unset, no VEPs)
and on non-retryable failures. -/
theorem C9_amended_flag_clearing (sheets_need_update : Bool) (veps : List VEP)
    (next_tasks_in : List String) (one_cycle debugTestSheets : Bool)
    (outcome : SheetsOutcome) :
    (update_sheets_node sheets_need_update veps next_tasks_in one_cycle debugTestSheets
        outcome).sheets_need_update
      = (sheets_need_update && !veps.isEmpty && sheetsFlagKept outcome) := by
  unfold update_sheets_node sheetsFlagKept
  cases sheets_need_update with
  | false => simp
  | true =>
    cases hv : veps.isEmpty with
    | true => simp [hv]
    | false =>
      cases outcome with
      | noResult => simp [hv]
      | raised msg => simp [hv]
      | reply success sheet_id errors =>
        cases success with
        | true => simp [hv]
        | false =>
          cases hs : sheet_id.isNone with
          | true =>
            by_cases hp : isPermApiQuotaError (sheetsFailureMsg errors) = true
            · simp [hv, hs, hp]
            · simp [hv, hs, hp]
          | false => simp [hv, hs]

/-- When the flag is set and analysis is not pending (or monitoring is
skipped), the dirty-flag paragraph guarantees `update_sheets` is queued. -/
theorem update_sheets_mem_applyDirtyFlag {s : SchedulerState} {needAnalysis : Bool}
    (next_tasks : List String) (hflag : s.sheets_need_update = true)
    (hready : needAnalysis = false ∨ s.skip_monitoring = true) :
    "update_sheets" ∈ applyDirtyFlag s needAnalysis next_tasks := by
  unfold applyDirtyFlag
  by_cases hin : "update_sheets" ∈ next_tasks
  · split
    · split
      · exact List.mem_append_left _ hin
      · exact hin
    · exact hin
  · rw [if_pos ⟨hflag, hin⟩]
    have : (!needAnalysis || s.skip_monitoring) = true := by
      rcases hready with h | h <;> simp [h]
    rw [if_pos this]
    exact List.mem_append_right _ (by simp)

/-- State for the C3 counterexample: steady state at the 14:00 round hour;
`fetch_veps`, `analyze_combined` and `update_sheets` ran recently (13:53:20,
13:55:00, 13:56:40) so neither fetching nor publishing is due by timer;
`alert_summary` last ran at 12:58:20 and is due; the dirty flag is set. -/
def c3state : SchedulerState :=
  { last_check_times := [("fetch_veps", 50000000000), ("analyze_combined", 50100000000),
      ("update_sheets", 50200000000), ("alert_summary", 46700000000)]
    veps := [101]
    one_cycle := false
    immediate_start := false
    skip_monitoring := false
    sheets_need_update := true
    exit_after_sheets := false }

/-- C3 counterexample: with the dirty flag set and `update_sheets` not
otherwise queued, the scheduler emits `["alert_summary", "update_sheets"]` —
the publish task is appended at the *back*, behind the timer-driven
`alert_summary`, not inserted at the front. -/
theorem C3_counterexample :
    c3state.sheets_need_update = true
    ∧ scheduler_node c3state false t1400 = ["alert_summary", "update_sheets"]
    ∧ (scheduler_node c3state false t1400).head? ≠ some "update_sheets" := by
  refine ⟨rfl, by decide, by decide⟩

/-- C3 as amended: when the dirty flag is set, the exit gate is off, the
boundary gate passes (first run, `immediate_start`, or a round hour) and
analysis is not pending (or monitoring is skipped), the scheduler does queue
`update_sheets` — but by *appending* it at the back of the queue, after any
timer-driven tasks (second conjunct); off a round hour without
`immediate_start` the flag is ignored for that cycle, since the scheduler
early-returns the sentinel queue before reaching the flag check. -/
theorem C3_amended_dirty_flag_appends :
    (∀ (s : SchedulerState) (debugTestSheets : Bool) (now : Nat),
      ((s.one_cycle || debugTestSheets) && s.exit_after_sheets) = false →
      s.sheets_need_update = true →
      (s.last_check_times = [] ∨ s.immediate_start = true ∨ is_round_hour now = true) →
      (veps_need_analysis s.last_check_times = false ∨ s.skip_monitoring = true) →
      "update_sheets" ∈ scheduler_node s debugTestSheets now)
    ∧ (∀ (s : SchedulerState) (needAnalysis : Bool) (next_tasks : List String),
      s.sheets_need_update = true →
      "update_sheets" ∉ next_tasks →
      (needAnalysis = false ∨ s.skip_monitoring = true) →
      applyDirtyFlag s needAnalysis next_tasks = next_tasks ++ ["update_sheets"]) := by
  constructor
  · intro s debugTestSheets now hgate hflag hboundary hready
    unfold scheduler_node
    rw [hgate]
    simp only [Bool.false_eq_true, if_false]
    by_cases hfr : s.last_check_times.length = 0
    · rw [if_pos hfr]
      exact update_sheets_mem_applyDirtyFlag _ hflag hready
    · rw [if_neg hfr]
      have hb2 : s.immediate_start = true ∨ is_round_hour now = true := by
        rcases hboundary with h | h | h
        · exact absurd (by rw [h]; rfl) hfr
        · exact Or.inl h
        · exact Or.inr h
      have : (!s.immediate_start && !is_round_hour now) = false := by
        rcases hb2 with h | h <;> simp [h]
      rw [this]
      simp only [Bool.false_eq_true, if_false]
      exact update_sheets_mem_applyDirtyFlag _ hflag hready
  · intro s needAnalysis next_tasks hflag hnotin hready
    unfold applyDirtyFlag
    rw [if_pos ⟨hflag, hnotin⟩]
    have : (!needAnalysis || s.skip_monitoring) = true := by
      rcases hready with h | h <;> simp [h]
    rw [if_pos this]

/-- C3 witness: at the counterexample state the amended claim holds —
`update_sheets` is queued, and the dirty-flag paragraph appends it behind
the already-queued `alert_summary`. -/
theorem C3_amended_dirty_flag_appends_witness :
    "update_sheets" ∈ scheduler_node c3state false t1400
    ∧ applyDirtyFlag c3state false ["alert_summary"] = ["alert_summary", "update_sheets"] :=
  ⟨C3_amended_dirty_flag_appends.1 c3state false t1400 rfl rfl
      (Or.inr (Or.inr (by decide))) (Or.inl (by decide)),
   C3_amended_dirty_flag_appends.2 c3state false ["alert_summary"] rfl (by decide)
      (Or.inl rfl)⟩

/-- State for the C7 scenario: ordinary steady state (no overrides), with a
non-empty `last_check_times`. -/
def c7state : SchedulerState :=
  { last_check_times := [("fetch_veps", 46000000000)]
    veps := [101]
    one_cycle := false
    immediate_start := false
    skip_monitoring := false
    sheets_need_update := false
    exit_after_sheets := false }

/-- State for the C7 counterexample: as `c7state` but in one-cycle mode with
`_exit_after_sheets` set. -/
def c7xstate : SchedulerState :=
  { last_check_times := [("fetch_veps", 46000000000)]
    veps := [101]
    one_cycle := true
    immediate_start := false
    skip_monitoring := false
    sheets_need_update := false
    exit_after_sheets := true }

/-- C7 counterexample: a non-first-run input with `immediate_start = false`
at 13:47 (off the hour boundary) for which the queue is *not* `["wait"]`:
the one-cycle exit gate precedes the boundary gate and returns the empty
queue instead. -/
theorem C7_counterexample :
    (c7xstate.last_check_times ≠ [] ∧ c7xstate.immediate_start = false
      ∧ is_round_hour t1347 = false)
    ∧ scheduler_node c7xstate false t1347 = []
    ∧ scheduler_node c7xstate false t1347 ≠ ["wait"] := by
  refine ⟨⟨by decide, rfl, by decide⟩, by decide, by decide⟩

/-- C7 as amended: in any non-first-run state with `immediate_start` off, a
`now` off the hour boundary, *and the exit gate inactive*, the scheduler
emits exactly the sentinel queue `["wait"]` and considers no other task;
at 13:47 the recomputed wait duration to the next boundary (14:00) is 780
seconds = 13 minutes. -/
theorem C7_amended_off_boundary_wait :
    (∀ (s : SchedulerState) (debugTestSheets : Bool) (now : Nat),
      ((s.one_cycle || debugTestSheets) && s.exit_after_sheets) = false →
      s.last_check_times ≠ [] →
      s.immediate_start = false →
      is_round_hour now = false →
      scheduler_node s debugTestSheets now = ["wait"])
    ∧ get_next_round_hour t1347 - t1347 = 780 * usPerSecond
    ∧ is_round_hour t1347 = false := by
  refine ⟨?_, by decide, by decide⟩
  intro s debugTestSheets now hgate hne himm hround
  unfold scheduler_node
  rw [hgate]
  simp only [Bool.false_eq_true, if_false]
  have hfr : ¬(s.last_check_times.length = 0) := by
    intro h
    exact hne (List.length_eq_zero.mp h)
  rw [if_neg hfr]
  rw [himm, hround]
  rfl

/-- C7 witness: the amended statement at the concrete off-boundary scenario
state and 13:47. -/
theorem C7_amended_off_boundary_wait_witness :
    is_round_hour t1347 = false ∧ scheduler_node c7state false t1347 = ["wait"] :=
  ⟨by decide,
   C7_amended_off_boundary_wait.1 c7state false t1347 rfl (by decide) rfl (by decide)⟩

end VEPAgent
